import Mathlib

/-!
Verification of the Steam-Connect redirector (a Cloudflare worker).

The repository holds two JavaScript handlers:
  - a hardened worker (embedded in src/README.md): IPv4 validation,
    private/reserved CIDR range blocking, JSON error bodies, security
    headers, 301 redirect;
  - a minimal worker (src/worker.js): regex IPv4 validation, plain text
    error bodies, try/catch mapping faults to 500, 302 redirect.

The definitions below are a shallow embedding of that code.  JavaScript
32-bit coercions are made explicit over Int/Nat; strings are processed
over their character lists so that every definition is executable and
kernel-reducible.
-/

namespace SteamConnect

/-! ## JavaScript numeric semantics -/

/-- JS ToInt32: reduce an integer into the signed 32-bit range. -/
def toInt32 (n : Int) : Int :=
  let m := n % 4294967296
  if m < 2147483648 then m else m - 4294967296

/-- JS ToUint32: the value of the low 32 bits of an integer, as a Nat. -/
def toUInt32 (n : Int) : Nat := (n % 4294967296).toNat

/-- JS bitwise AND on integer-valued numbers: both operands are coerced
to 32 bits and the result is a signed 32-bit value. -/
def jsAnd (a b : Int) : Int :=
  toInt32 (Int.ofNat (Nat.land (toUInt32 a) (toUInt32 b)))

/-- JS bitwise NOT on an integer-valued number: on the 32-bit domain
it satisfies the identity used here, namely tilde x equals -ToInt32(x)-1. -/
def jsNot (a : Int) : Int := toInt32 (-a - 1)

/-- JS left shift by 8 of an integer-valued number (acc << 8). -/
def jsShl8 (a : Int) : Int := toInt32 (a * 256)

/-! ## Character and string helpers (JS regex and parse primitives) -/

/-- Regex character class backslash-d: an ASCII decimal digit. -/
def isDigitChar (c : Char) : Bool :=
  decide (48 ≤ c.toNat) && decide (c.toNat ≤ 57)

/-- Whitespace stripped by JS parseInt before reading digits. -/
def jsWhitespace (c : Char) : Bool :=
  decide (c.toNat = 32) || decide (c.toNat = 9) || decide (c.toNat = 10) ||
  decide (c.toNat = 13) || decide (c.toNat = 11) || decide (c.toNat = 12)

/-- Decimal value of a digit list (most significant first). -/
def natOfDigitList (l : List Char) : Nat :=
  l.foldl (fun acc c => acc * 10 + (c.toNat - 48)) 0

/-- Decimal value of an all-digit string. -/
def natOfDigits (s : String) : Nat := natOfDigitList s.data

/-- JS String.prototype.split with a one-character separator: splits at
every occurrence of the separator, keeping empty segments, so that for
example the empty string splits into one empty segment. -/
def splitChar (sep : Char) : List Char → List (List Char)
  | [] => [[]]
  | c :: rest =>
    if c = sep then [] :: splitChar sep rest
    else
      match splitChar sep rest with
      | h :: t => (c :: h) :: t
      | [] => [[c]]

/-- String-level wrapper for `splitChar`. -/
def jsSplit (s : String) (sep : Char) : List String :=
  (splitChar sep s.data).map String.mk

/-- The test of the anchored regex carret-backslash-d-plus-dollar used on
octets and on the port string: one or more decimal digits and nothing
else. -/
def digitsOnly (s : String) : Bool :=
  !s.data.isEmpty && s.data.all isDigitChar

/-- JS parseInt(s, 10): skip leading whitespace, read an optional sign,
then the longest prefix of decimal digits; `none` models NaN.  The digit
value is kept exact; every comparison the workers make against it (with
1, 65535) is unchanged by the double-precision rounding JS would apply
to very long digit strings, because rounding is monotone and exact below
2 to the 53rd. -/
def parseIntJS (s : String) : Option Int :=
  match s.data.dropWhile jsWhitespace with
  | [] => none
  | c :: rest =>
    let body := if c = '-' ∨ c = '+' then rest else c :: rest
    let sign : Int := if c = '-' then -1 else 1
    match body.takeWhile isDigitChar with
    | [] => none
    | ds => some (sign * Int.ofNat (natOfDigitList ds))

/-! ## Hardened worker: validation functions (src/README.md) -/

/-- JS part.startsWith("0"). -/
def startsWith0 (s : String) : Bool :=
  match s.data with
  | [] => false
  | c :: _ => decide (c = '0')

/-- Source `isValidIPv4`: split on the dot; exactly 4 parts; each part
all-digit (carret-backslash-d-plus-dollar), numerically at most 255
(Number(part) is nonnegative for digit strings, so the `num < 0` test of
the source is vacuous and the exact digit value decides `num > 255`
even for very long digit strings), and no leading zero on a multi-digit
part. -/
def isValidIPv4 (ip : String) : Bool :=
  let parts := jsSplit ip '.'
  if parts.length ≠ 4 then false
  else parts.all fun part =>
    digitsOnly part &&
    decide (natOfDigits part ≤ 255) &&
    !(decide (part.length > 1) && startsWith0 part)

/-- Source `ipv4ToInt`: split on the dot and fold
(acc << 8) + parseInt(octet, 10), then >>> 0.  Every call site passes a
dotted quad of digit strings, so parseInt never yields NaN there and the
`getD 0` default is unreachable. -/
def ipv4ToInt (ip : String) : Nat :=
  toUInt32 ((jsSplit ip '.').foldl
    (fun acc octet => jsShl8 acc + (parseIntJS octet).getD 0) 0)

/-- Core of source `ipInCidr` after the CIDR string is destructured into
its range and its dotted prefix-length text: mask is the JS expression
tilde (2 ** (32 - Number(pfx)) - 1), and the two masked addresses are
compared with ===. -/
def cidrTest (ip range pfx : String) : Bool :=
  let ipInt : Int := Int.ofNat (ipv4ToInt ip)
  let rangeInt : Int := Int.ofNat (ipv4ToInt range)
  let mask : Int := jsNot ((2 : Int) ^ (32 - natOfDigits pfx) - 1)
  decide (jsAnd ipInt mask = jsAnd rangeInt mask)

/-- Source `ipInCidr`: destructure "base/len" on the slash. -/
def ipInCidr (ip cidr : String) : Bool :=
  match jsSplit cidr '/' with
  | range :: pfx :: _ => cidrTest ip range pfx
  | _ => false

/-- Source `cidrBlocks`: the fixed list of private and reserved ranges. -/
def cidrBlocks : List String :=
  ["0.0.0.0/8", "10.0.0.0/8", "127.0.0.0/8", "169.254.0.0/16",
   "172.16.0.0/12", "192.0.0.0/24", "192.168.0.0/16", "255.255.255.255/32"]

/-- Source `isPrivateOrReservedIP`: some CIDR block contains the ip. -/
def isPrivateOrReservedIP (ip : String) : Bool :=
  cidrBlocks.any fun cidr => ipInCidr ip cidr

/-! ## Hardened worker: the fetch handler (src/README.md) -/

/-- An HTTP response: status, ordered header list, optional body. -/
structure Response where
  status : Nat
  headers : List (String × String)
  body : Option String
deriving DecidableEq

/-- Source `responseHeaders`: the common security header object. -/
def responseHeaders : List (String × String) :=
  [("Content-Type", "application/json; charset=utf-8"),
   ("X-Content-Type-Options", "nosniff"),
   ("Content-Security-Policy", "default-src \x27none\x27;"),
   ("Referrer-Policy", "no-referrer"),
   ("X-Frame-Options", "DENY"),
   ("Strict-Transport-Security", "max-age=31536000; includeSubDomains; preload")]

/-- JSON.stringify of an object with one `error` field whose value needs
no escaping (true of every message the worker emits). -/
def jsonError (msg : String) : String :=
  "\x7b\"error\":\"" ++ msg ++ "\"\x7d"

/-- JS falsiness of a nullable string: null or empty. -/
def falsy : Option String → Bool
  | none => true
  | some s => s.data.isEmpty

/-- The hardened worker fetch handler, as a function of the two query
parameters (searchParams.get returns null when a parameter is absent).
The structure mirrors the source line by line: presence, address syntax,
reserved range, port digits, port range, then the 301 redirect whose
Location spreads the security headers after it. -/
def workerFetch (ip? port? : Option String) : Response :=
  let ip := ip?.getD ""
  let port := port?.getD ""
  if falsy ip? || falsy port? then
    ⟨400, responseHeaders,
      some (jsonError "Missing \x27ip\x27 and \x27port\x27 parameters.")⟩
  else if !isValidIPv4 ip then
    ⟨400, responseHeaders,
      some (jsonError "\x27ip\x27 parameter must be a valid IP address.")⟩
  else if isPrivateOrReservedIP ip then
    ⟨400, responseHeaders,
      some (jsonError "Redirecting to private or reserved IP addresses is not allowed.")⟩
  else if !digitsOnly port then
    ⟨400, responseHeaders,
      some (jsonError "\x27port\x27 parameter must be a valid port number.")⟩
  else
    -- parseInt(port, 10); NaN is impossible here because the digit test
    -- just succeeded, so the getD default is unreachable.
    let portNumber : Int := (parseIntJS port).getD 0
    if portNumber < 1 ∨ portNumber > 65535 then
      ⟨400, responseHeaders,
        some (jsonError "\x27port\x27 parameter must be between 1 and 65535.")⟩
    else
      ⟨301, ("Location", "steam://connect/" ++ ip ++ ":" ++ Int.repr portNumber)
              :: responseHeaders, none⟩

/-! ## Minimal worker (src/worker.js) -/

/-- A fetch invocation: either the request URL is one the URL
constructor rejects (so `new URL(request.url)` throws), or it parses and
yields the two query parameters. -/
inductive FetchInput where
  | badUrl
  | params (ip? port? : Option String)
deriving DecidableEq

/-- The hardened worker has no try/catch: a URL-constructor exception
escapes the handler, modelled as `Except.error`. -/
def hardenedFetch : FetchInput → Except Unit Response
  | .badUrl => .error ()
  | .params ip? port? => .ok (workerFetch ip? port?)

/-- Headers of every minimal-worker error response. -/
def minimalTextHeaders : List (String × String) :=
  [("Content-Type", "text/plain")]

/-- One octet group of the minimal worker regex:
25[0-5] | 2[0-4][0-9] | [01]?[0-9][0-9]?. -/
def matchOctet (s : String) : Bool :=
  match s.data with
  | [a] => isDigitChar a
  | [a, b] => isDigitChar a && isDigitChar b
  | [a, b, c] =>
      (decide (a.toNat = 50) && decide (b.toNat = 53) &&
        decide (48 ≤ c.toNat) && decide (c.toNat ≤ 53)) ||
      (decide (a.toNat = 50) && decide (48 ≤ b.toNat) &&
        decide (b.toNat ≤ 52) && isDigitChar c) ||
      ((decide (a.toNat = 48) || decide (a.toNat = 49)) &&
        isDigitChar b && isDigitChar c)
  | _ => false

/-- The anchored minimal-worker regex: four octet groups joined by
literal dots.  Because an octet group can only match digits, the regex
matches exactly when splitting on the dot yields four matching groups. -/
def ipPatternTest (s : String) : Bool :=
  match jsSplit s '.' with
  | [a, b, c, d] => matchOctet a && matchOctet b && matchOctet c && matchOctet d
  | _ => false

/-- Body of the minimal worker before its catch: presence test, regex
test, parseInt with combined NaN and range test, then
Response.redirect(steamUrl, 302) which carries the original port string. -/
def minimalFetchBody : FetchInput → Except Unit Response
  | .badUrl => .error ()
  | .params ip? port? =>
    let ip := ip?.getD ""
    let port := port?.getD ""
    if falsy ip? || falsy port? then
      .ok ⟨400, minimalTextHeaders,
        some "Error: Missing one or more required parameters. \x27ip\x27 and \x27port\x27 are required."⟩
    else if !ipPatternTest ip then
      .ok ⟨400, minimalTextHeaders,
        some "Error: \x27ip\x27 parameter must be a valid IPv4 address."⟩
    else
      match parseIntJS port with
      | none =>
        .ok ⟨400, minimalTextHeaders,
          some "Error: \x27port\x27 parameter must be a valid port number between 1 and 65535."⟩
      | some portNumber =>
        if portNumber < 1 ∨ portNumber > 65535 then
          .ok ⟨400, minimalTextHeaders,
            some "Error: \x27port\x27 parameter must be a valid port number between 1 and 65535."⟩
        else
          .ok ⟨302, [("Location", "steam://connect/" ++ ip ++ ":" ++ port)], none⟩

/-- The minimal worker fetch handler: its try/catch converts any
exception into a plain 500 response, so it is total. -/
def minimalFetch (r : FetchInput) : Response :=
  match minimalFetchBody r with
  | .ok resp => resp
  | .error _ =>
    ⟨500, minimalTextHeaders,
      some "Internal Server Error: An unexpected error occurred."⟩

/-! ## Spec-side definitions

These definitions follow the wording of the specification and of the
claims, to be compared with the definitions translated from the source
above. -/

/-- Bitmask of a CIDR prefix length as the spec words it: exactly the
top p bits set and the bottom 32-p bits zero; all ones at 32, zero
at 0. -/
def specMask (p : Nat) : Nat := (2 ^ p - 1) * 2 ^ (32 - p)

/-- The 8 fixed reserved blocks as (base address, prefix length) pairs,
the base being the big-endian 32-bit value of the dotted quad named in
the comment. -/
def reservedBlocks : List (Nat × Nat) :=
  [(0, 8),            -- 0.0.0.0/8
   (167772160, 8),    -- 10.0.0.0/8
   (2130706432, 8),   -- 127.0.0.0/8
   (2851995648, 16),  -- 169.254.0.0/16
   (2886729728, 12),  -- 172.16.0.0/12
   (3221225472, 24),  -- 192.0.0.0/24
   (3232235520, 16),  -- 192.168.0.0/16
   (4294967295, 32)]  -- 255.255.255.255/32

/-- Range classifier as the spec words it: the address matches some
reserved block under unsigned 32-bit masking. -/
def specReserved (ip : String) : Bool :=
  reservedBlocks.any fun pr =>
    decide (ipv4ToInt ip &&& specMask pr.2 = pr.1 &&& specMask pr.2)

/-- For every prefix length up to 32, the JS mask expression
tilde (2 ** (32 - p) - 1) denotes, as an unsigned 32-bit value, exactly
the mask with the top p bits set: no overflow or sign-extension error,
including the edge cases 32 and 0. -/
def maskRealizationOk : Bool :=
  (List.range 33).all fun p =>
    decide (toUInt32 (jsNot ((2 : Int) ^ (32 - p) - 1)) = specMask p)

/-- Address validator as the spec words it: exactly 4 dot-separated
segments, each non-empty, all digits, value at most 255, and no leading
zero unless the segment is exactly "0". -/
def specAddressOk (s : String) : Bool :=
  let parts := jsSplit s '.'
  decide (parts.length = 4) && parts.all fun part =>
    !part.data.isEmpty && part.data.all isDigitChar &&
    decide (natOfDigits part ≤ 255) &&
    (decide (part = "0") || !startsWith0 part)

/-- Whether a fetch outcome is an HTTP response rather than an escaped
exception. -/
def returnsResponse : Except Unit Response → Bool
  | .ok _ => true
  | .error _ => false

/-- Whether a response carries a Location header. -/
def hasLocation (r : Response) : Bool :=
  r.headers.any fun kv => decide (kv.1 = "Location")

/-- The request-handling chain as the spec and the claims word it:
presence, address syntax, reserved range, port format, port range, in
that fixed order; the first failing check produces its own 400 JSON
error, and the success path produces the 301 redirect whose Location
carries the original address string and the canonical decimal port. -/
def specOutcome (ip? port? : Option String) : Response :=
  if falsy ip? || falsy port? then
    ⟨400, responseHeaders,
      some (jsonError "Missing \x27ip\x27 and \x27port\x27 parameters.")⟩
  else
    let ip := ip?.getD ""
    let port := port?.getD ""
    if !specAddressOk ip then
      ⟨400, responseHeaders,
        some (jsonError "\x27ip\x27 parameter must be a valid IP address.")⟩
    else if specReserved ip then
      ⟨400, responseHeaders,
        some (jsonError "Redirecting to private or reserved IP addresses is not allowed.")⟩
    else if !digitsOnly port then
      ⟨400, responseHeaders,
        some (jsonError "\x27port\x27 parameter must be a valid port number.")⟩
    else if natOfDigits port < 1 ∨ natOfDigits port > 65535 then
      ⟨400, responseHeaders,
        some (jsonError "\x27port\x27 parameter must be between 1 and 65535.")⟩
    else
      ⟨301, ("Location",
          "steam://connect/" ++ ip ++ ":" ++ Nat.repr (natOfDigits port))
        :: responseHeaders, none⟩

/-! ## Arithmetic bridge: JS 32-bit coercions versus unsigned values -/

lemma toUInt32_lt (n : Int) : toUInt32 n < 4294967296 := by
  unfold toUInt32
  omega

lemma toUInt32_ofNat (v : Nat) (h : v < 4294967296) :
    toUInt32 (Int.ofNat v) = v := by
  unfold toUInt32
  simp only [Int.ofNat_eq_natCast]
  omega

lemma ipv4ToInt_lt (ip : String) : ipv4ToInt ip < 4294967296 :=
  toUInt32_lt _

lemma toInt32_ofNat_inj {u v : Nat} (hu : u < 4294967296)
    (hv : v < 4294967296) :
    (toInt32 (Int.ofNat u) = toInt32 (Int.ofNat v)) ↔ u = v := by
  simp only [toInt32, Int.ofNat_eq_natCast]
  split_ifs <;> omega

/-- Comparing two JS bitwise ANDs of in-range unsigned values against a
common mask is the same as comparing the unsigned masked values. -/
lemma jsAnd_ofNat_eq (v b : Nat) (m : Int) (hv : v < 4294967296)
    (hb : b < 4294967296) :
    (jsAnd (Int.ofNat v) m = jsAnd (Int.ofNat b) m) ↔
      (v &&& toUInt32 m = b &&& toUInt32 m) := by
  unfold jsAnd
  rw [toUInt32_ofNat v hv, toUInt32_ofNat b hb]
  exact toInt32_ofNat_inj
    (lt_of_le_of_lt Nat.and_le_left hv)
    (lt_of_le_of_lt Nat.and_le_left hb)

/-- The masked comparison of `ipInCidr` equals the unsigned masked
comparison, once the value of the JS mask expression is supplied. -/
lemma cidrTest_eq (ip range pfx : String) (mU : Nat)
    (hm : toUInt32 (jsNot ((2 : Int) ^ (32 - natOfDigits pfx) - 1)) = mU) :
    cidrTest ip range pfx =
      decide (ipv4ToInt ip &&& mU = ipv4ToInt range &&& mU) := by
  simp only [cidrTest]
  rw [← hm]
  exact decide_eq_decide.mpr
    (jsAnd_ofNat_eq (ipv4ToInt ip) (ipv4ToInt range) _
      (ipv4ToInt_lt ip) (ipv4ToInt_lt range))

/-- The range classifier of the source computes exactly the spec-side
reserved-block test. -/
lemma reserved_eq (ip : String) :
    isPrivateOrReservedIP ip = specReserved ip := by
  have e0 : ipInCidr ip "0.0.0.0/8" =
      decide (ipv4ToInt ip &&& specMask 8 = 0 &&& specMask 8) := by
    have h := cidrTest_eq ip "0.0.0.0" "8" (specMask 8) (by decide)
    rw [show ipv4ToInt "0.0.0.0" = 0 from by decide] at h
    exact h
  have e1 : ipInCidr ip "10.0.0.0/8" =
      decide (ipv4ToInt ip &&& specMask 8 = 167772160 &&& specMask 8) := by
    have h := cidrTest_eq ip "10.0.0.0" "8" (specMask 8) (by decide)
    rw [show ipv4ToInt "10.0.0.0" = 167772160 from by decide] at h
    exact h
  have e2 : ipInCidr ip "127.0.0.0/8" =
      decide (ipv4ToInt ip &&& specMask 8 = 2130706432 &&& specMask 8) := by
    have h := cidrTest_eq ip "127.0.0.0" "8" (specMask 8) (by decide)
    rw [show ipv4ToInt "127.0.0.0" = 2130706432 from by decide] at h
    exact h
  have e3 : ipInCidr ip "169.254.0.0/16" =
      decide (ipv4ToInt ip &&& specMask 16 = 2851995648 &&& specMask 16) := by
    have h := cidrTest_eq ip "169.254.0.0" "16" (specMask 16) (by decide)
    rw [show ipv4ToInt "169.254.0.0" = 2851995648 from by decide] at h
    exact h
  have e4 : ipInCidr ip "172.16.0.0/12" =
      decide (ipv4ToInt ip &&& specMask 12 = 2886729728 &&& specMask 12) := by
    have h := cidrTest_eq ip "172.16.0.0" "12" (specMask 12) (by decide)
    rw [show ipv4ToInt "172.16.0.0" = 2886729728 from by decide] at h
    exact h
  have e5 : ipInCidr ip "192.0.0.0/24" =
      decide (ipv4ToInt ip &&& specMask 24 = 3221225472 &&& specMask 24) := by
    have h := cidrTest_eq ip "192.0.0.0" "24" (specMask 24) (by decide)
    rw [show ipv4ToInt "192.0.0.0" = 3221225472 from by decide] at h
    exact h
  have e6 : ipInCidr ip "192.168.0.0/16" =
      decide (ipv4ToInt ip &&& specMask 16 = 3232235520 &&& specMask 16) := by
    have h := cidrTest_eq ip "192.168.0.0" "16" (specMask 16) (by decide)
    rw [show ipv4ToInt "192.168.0.0" = 3232235520 from by decide] at h
    exact h
  have e7 : ipInCidr ip "255.255.255.255/32" =
      decide (ipv4ToInt ip &&& specMask 32 = 4294967295 &&& specMask 32) := by
    have h := cidrTest_eq ip "255.255.255.255" "32" (specMask 32) (by decide)
    rw [show ipv4ToInt "255.255.255.255" = 4294967295 from by decide] at h
    exact h
  simp only [isPrivateOrReservedIP, cidrBlocks, List.any_cons, List.any_nil,
    Bool.or_false]
  rw [e0, e1, e2, e3, e4, e5, e6, e7]
  simp only [specReserved, reservedBlocks, List.any_cons, List.any_nil,
    Bool.or_false]

/-! ## Address validator bridge -/

lemma all_congr {α : Type} {l : List α} {f g : α → Bool}
    (h : ∀ a ∈ l, f a = g a) : l.all f = l.all g := by
  induction l with
  | nil => rfl
  | cons a t ih =>
    simp only [List.all_cons]
    rw [h a (by simp), ih (fun b hb => h b (by simp [hb]))]

/-- Per-segment check of the source validator versus the spec wording:
the only difference is the leading-zero clause, where the source tests
length above one and the spec tests the segment not being exactly
"0". -/
lemma partCheck_eq (part : String) :
    (digitsOnly part && decide (natOfDigits part ≤ 255) &&
      !(decide (part.length > 1) && startsWith0 part)) =
    (!part.data.isEmpty && part.data.all isDigitChar &&
      decide (natOfDigits part ≤ 255) &&
      (decide (part = "0") || !startsWith0 part)) := by
  obtain ⟨l⟩ := part
  cases l with
  | nil => rfl
  | cons c t =>
    cases t with
    | nil =>
      by_cases hc : c = '0'
      · subst hc; rfl
      · have h0 : startsWith0 ⟨[c]⟩ = false := by
          simp [startsWith0, hc]
        have h1 : decide ((⟨[c]⟩ : String) = "0") = false := by
          simp only [decide_eq_false_iff_not]
          intro h
          exact hc (by simpa [String.ext_iff] using h)
        simp [digitsOnly, h0, h1, String.length]
    | cons d r =>
      have h2 : decide ((⟨c :: d :: r⟩ : String).length > 1) = true := by
        simp [String.length]
      have h3 : decide ((⟨c :: d :: r⟩ : String) = "0") = false := by
        simp only [decide_eq_false_iff_not]
        intro h
        simp [String.ext_iff] at h
      simp [digitsOnly, h2, h3]

/-- The source address validator computes exactly the spec-side
predicate. -/
lemma valid_eq_spec (s : String) : isValidIPv4 s = specAddressOk s := by
  unfold isValidIPv4 specAddressOk
  by_cases hl : (jsSplit s '.').length = 4
  · simp only [hl, decide_True, true_and, if_neg (by omega : ¬(4 ≠ 4))]
    exact all_congr fun part _ => partCheck_eq part
  · simp [hl]

/-! ## parseInt bridge -/

lemma takeWhile_all {α : Type} (p : α → Bool) (l : List α)
    (h : l.all p = true) : l.takeWhile p = l := by
  induction l with
  | nil => rfl
  | cons a t ih =>
    simp only [List.all_cons, Bool.and_eq_true] at h
    rw [List.takeWhile_cons, h.1, if_pos rfl, ih h.2]

/-- On a non-empty all-digit string, parseInt reads every character and
yields exactly the decimal value (no NaN). -/
lemma parseIntJS_digits (p : String) (h : digitsOnly p = true) :
    parseIntJS p = some (Int.ofNat (natOfDigits p)) := by
  obtain ⟨l⟩ := p
  simp only [digitsOnly, Bool.and_eq_true] at h
  obtain ⟨hne, hall⟩ := h
  cases l with
  | nil => simp at hne
  | cons c t =>
    have hcd : isDigitChar c = true := by
      simp only [List.all_cons, Bool.and_eq_true] at hall
      exact hall.1
    have hnum : 48 ≤ c.toNat ∧ c.toNat ≤ 57 := by
      simpa [isDigitChar] using hcd
    have hws : jsWhitespace c = false := by
      simp only [jsWhitespace, Bool.or_eq_false_iff, decide_eq_false_iff_not]
      omega
    have hsign : ¬(c = '-' ∨ c = '+') := by
      rintro (rfl | rfl) <;> simp_all
    have hminus : c ≠ '-' := fun h => hsign (Or.inl h)
    unfold parseIntJS
    rw [show (String.data ⟨c :: t⟩) = c :: t from rfl,
      List.dropWhile_cons, hws]
    simp only [Bool.false_eq_true, if_false, if_neg hsign, if_neg hminus]
    rw [takeWhile_all isDigitChar (c :: t) hall]
    simp [natOfDigits]

/-! ## Handler bridge -/

/-- The hardened fetch handler computes exactly the spec-side chain. -/
lemma fetch_eq_spec (ip? port? : Option String) :
    workerFetch ip? port? = specOutcome ip? port? := by
  unfold workerFetch specOutcome
  cases h0 : (falsy ip? || falsy port?) with
  | true => simp
  | false =>
    simp only [Bool.false_eq_true, if_false]
    rw [valid_eq_spec (ip?.getD ""), reserved_eq (ip?.getD "")]
    cases hv : specAddressOk (ip?.getD "") with
    | false => simp
    | true =>
      simp only [Bool.not_true, Bool.false_eq_true, if_false]
      cases hres : specReserved (ip?.getD "") with
      | true => simp
      | false =>
        simp only [Bool.false_eq_true, if_false]
        cases hd : digitsOnly (port?.getD "") with
        | false => simp
        | true =>
          simp only [Bool.not_true, Bool.false_eq_true, if_false]
          rw [parseIntJS_digits (port?.getD "") hd]
          simp only [Option.getD_some]
          have hiff :
              (Int.ofNat (natOfDigits (port?.getD "")) < 1 ∨
                Int.ofNat (natOfDigits (port?.getD "")) > 65535) ↔
              (natOfDigits (port?.getD "") < 1 ∨
                natOfDigits (port?.getD "") > 65535) := by
            simp only [Int.ofNat_eq_natCast]
            omega
          by_cases hr : natOfDigits (port?.getD "") < 1 ∨
              natOfDigits (port?.getD "") > 65535
          · rw [if_pos (hiff.mpr hr), if_pos hr]
          · rw [if_neg (fun h => hr (hiff.mp h)), if_neg hr]
            rfl

lemma valid_falsy (ip : String) (h : isValidIPv4 ip = true) :
    falsy (some ip) = false := by
  show ip.data.isEmpty = false
  obtain ⟨l⟩ := ip
  cases l with
  | nil => exact absurd h (by decide)
  | cons c t => rfl

lemma digits_falsy (p : String) (h : digitsOnly p = true) :
    falsy (some p) = false := by
  show p.data.isEmpty = false
  simp only [digitsOnly, Bool.and_eq_true] at h
  simpa using h.1

/-- With a valid non-reserved address, the response status is decided
entirely by the port string: 301 exactly when it is all digits with
value in range, else 400. -/
lemma workerFetch_status (ip p : String)
    (hip : isValidIPv4 ip = true)
    (hres : isPrivateOrReservedIP ip = false) :
    (workerFetch (some ip) (some p)).status =
      if digitsOnly p = true ∧ 1 ≤ natOfDigits p ∧ natOfDigits p ≤ 65535
      then 301 else 400 := by
  rw [fetch_eq_spec]
  unfold specOutcome
  have hspec : specAddressOk ip = true := by rw [← valid_eq_spec]; exact hip
  have hres' : specReserved ip = false := by rw [← reserved_eq]; exact hres
  rw [valid_falsy ip hip]
  cases hd : digitsOnly p with
  | false =>
    cases hfp : falsy (some p) with
    | true => simp [hfp, hd]
    | false => simp [hfp, hd, hspec, hres']
  | true =>
    have hfp : falsy (some p) = false := digits_falsy p hd
    simp only [hfp, Bool.or_self, Bool.false_eq_true, if_false,
      Option.getD_some, hspec, hres', Bool.not_true, hd]
    by_cases hr : 1 ≤ natOfDigits p ∧ natOfDigits p ≤ 65535
    · rw [if_neg (by omega : ¬(natOfDigits p < 1 ∨ natOfDigits p > 65535)),
        if_pos ⟨trivial, hr⟩]
    · rw [if_pos (by omega : natOfDigits p < 1 ∨ natOfDigits p > 65535),
        if_neg (by simp [hr])]

/-! ## Claim theorems -/

/-- C1: for every syntactically valid dotted-quad string, the range
classifier rejects exactly when the 32-bit big-endian address value
matches one of the 8 fixed reserved blocks under unsigned masking with
the top prefix-length bits set, and the JS mask expression
tilde (2 ** (32 - p) - 1) under 32-bit coercion realizes exactly that
unsigned mask for every prefix length up to 32, the /32 and /0 edge
cases included. -/
theorem rangeClassifierMatchesCidr (ip : String)
    (h : isValidIPv4 ip = true) :
    isPrivateOrReservedIP ip = specReserved ip ∧ maskRealizationOk = true :=
  ⟨reserved_eq ip, by decide⟩

/-- Witness for C1 at the concrete address 10.0.0.5. -/
theorem rangeClassifierMatchesCidr_witness :
    isValidIPv4 "10.0.0.5" = true ∧
      (isPrivateOrReservedIP "10.0.0.5" = specReserved "10.0.0.5" ∧
        maskRealizationOk = true) :=
  ⟨by decide, rangeClassifierMatchesCidr "10.0.0.5" (by decide)⟩

/-- C2: whenever the address is valid and not reserved and the port
string is all digits with value in [1,65535], the hardened handler
returns status 301 with an empty body and a Location header made of the
literal scheme, the original address string unchanged, a colon, and the
canonical decimal port (leading zeros eliminated). -/
theorem successRedirectShape (ip port : String)
    (hip : isValidIPv4 ip = true)
    (hres : isPrivateOrReservedIP ip = false)
    (hd : digitsOnly port = true)
    (h1 : 1 ≤ natOfDigits port) (h2 : natOfDigits port ≤ 65535) :
    workerFetch (some ip) (some port) =
      ⟨301,
        ("Location",
          "steam://connect/" ++ ip ++ ":" ++ Nat.repr (natOfDigits port))
          :: responseHeaders,
        none⟩ := by
  rw [fetch_eq_spec]
  unfold specOutcome
  have hspec : specAddressOk ip = true := by rw [← valid_eq_spec]; exact hip
  have hres' : specReserved ip = false := by rw [← reserved_eq]; exact hres
  rw [valid_falsy ip hip, digits_falsy port hd]
  simp only [Bool.or_self, Bool.false_eq_true, if_false, Option.getD_some,
    hspec, hres', hd, Bool.not_true]
  rw [if_neg (by omega : ¬(natOfDigits port < 1 ∨ natOfDigits port > 65535))]

/-- Witness for C2 at ip 51.68.200.55 and port 27015. -/
theorem successRedirectShape_witness :
    isValidIPv4 "51.68.200.55" = true ∧
    isPrivateOrReservedIP "51.68.200.55" = false ∧
    digitsOnly "27015" = true ∧
    1 ≤ natOfDigits "27015" ∧ natOfDigits "27015" ≤ 65535 ∧
    workerFetch (some "51.68.200.55") (some "27015") =
      ⟨301, ("Location", "steam://connect/51.68.200.55:27015")
        :: responseHeaders, none⟩ :=
  ⟨by decide, by decide, by decide, by decide, by decide,
    (successRedirectShape "51.68.200.55" "27015" (by decide) (by decide)
      (by decide) (by decide) (by decide)).trans (by decide)⟩

/-- C3 counterexample: the hardened worker has no try/catch, so on a
request whose URL the URL constructor rejects, no response is produced
and the exception escapes to the caller, contradicting the claim that no
exception ever propagates uncaught. -/
theorem faultHandling_counterexample :
    returnsResponse (hardenedFetch FetchInput.badUrl) = false := rfl

/-- C3 amended: the hardened handler returns a response for every
request whose URL parses; the minimal worker is the variant that wraps
its body in try/catch, so a URL-constructor fault inside its body is
converted to a 500 response with a generic message rather than
escaping. -/
theorem faultHandling :
    (∀ ip? port? : Option String,
      returnsResponse (hardenedFetch (FetchInput.params ip? port?)) = true) ∧
    returnsResponse (minimalFetchBody FetchInput.badUrl) = false ∧
    minimalFetch FetchInput.badUrl =
      ⟨500, minimalTextHeaders,
        some "Internal Server Error: An unexpected error occurred."⟩ :=
  ⟨fun _ _ => rfl, rfl, rfl⟩

/-- C4: the address validator computes exactly the spec-side predicate:
exactly 4 dot-separated segments, each non-empty, all digits, with value
at most 255, and no leading zero unless the segment is exactly "0"; as
a pure function it leaves the input string untouched. -/
theorem addressValidatorSpec (s : String) :
    isValidIPv4 s = specAddressOk s :=
  valid_eq_spec s

/-- C5: with a valid, non-reserved address, the handler redirects
exactly when the port string is one or more digits (no sign, no
whitespace) with value in [1,65535]; the inputs "0", "65536", "-1",
"abc" and "" are each answered with a 400. -/
theorem portAcceptance (ip p : String)
    (hip : isValidIPv4 ip = true)
    (hres : isPrivateOrReservedIP ip = false) :
    ((workerFetch (some ip) (some p)).status = 301 ↔
      (digitsOnly p = true ∧ 1 ≤ natOfDigits p ∧ natOfDigits p ≤ 65535)) ∧
    (workerFetch (some ip) (some "0")).status = 400 ∧
    (workerFetch (some ip) (some "65536")).status = 400 ∧
    (workerFetch (some ip) (some "-1")).status = 400 ∧
    (workerFetch (some ip) (some "abc")).status = 400 ∧
    (workerFetch (some ip) (some "")).status = 400 := by
  refine ⟨?_, ?_, ?_, ?_, ?_, ?_⟩
  · rw [workerFetch_status ip p hip hres]
    by_cases h : digitsOnly p = true ∧ 1 ≤ natOfDigits p ∧ natOfDigits p ≤ 65535
    · simp [h]
    · simp [h]
  · rw [workerFetch_status ip "0" hip hres, if_neg (by decide)]
  · rw [workerFetch_status ip "65536" hip hres, if_neg (by decide)]
  · rw [workerFetch_status ip "-1" hip hres, if_neg (by decide)]
  · rw [workerFetch_status ip "abc" hip hres, if_neg (by decide)]
  · rw [workerFetch_status ip "" hip hres, if_neg (by decide)]

/-- Witness for C5 at ip 51.68.200.55 and port 27015. -/
theorem portAcceptance_witness :
    isValidIPv4 "51.68.200.55" = true ∧
    isPrivateOrReservedIP "51.68.200.55" = false ∧
    (((workerFetch (some "51.68.200.55") (some "27015")).status = 301 ↔
      (digitsOnly "27015" = true ∧ 1 ≤ natOfDigits "27015" ∧
        natOfDigits "27015" ≤ 65535)) ∧
    (workerFetch (some "51.68.200.55") (some "0")).status = 400 ∧
    (workerFetch (some "51.68.200.55") (some "65536")).status = 400 ∧
    (workerFetch (some "51.68.200.55") (some "-1")).status = 400 ∧
    (workerFetch (some "51.68.200.55") (some "abc")).status = 400 ∧
    (workerFetch (some "51.68.200.55") (some "")).status = 400) :=
  ⟨by decide, by decide,
    portAcceptance "51.68.200.55" "27015" (by decide) (by decide)⟩

/-- C6: the hardened handler equals the fixed ordered chain of checks,
so the first failing check determines the 400 error and no check is
reordered; every outcome is either a full redirect (301, Location
header, empty body) or a full structured error (400, no Location, JSON
body); and a request whose address and port are both invalid is
reported as the address-syntax error. -/
theorem checkOrdering :
    (∀ ip? port? : Option String,
      workerFetch ip? port? = specOutcome ip? port?) ∧
    (∀ ip? port? : Option String,
      ((workerFetch ip? port?).status = 301 ∧
        hasLocation (workerFetch ip? port?) = true ∧
        (workerFetch ip? port?).body = none) ∨
      ((workerFetch ip? port?).status = 400 ∧
        hasLocation (workerFetch ip? port?) = false ∧
        (workerFetch ip? port?).body.isSome = true)) ∧
    workerFetch (some "999.1.2.3") (some "abc") =
      ⟨400, responseHeaders,
        some (jsonError "\x27ip\x27 parameter must be a valid IP address.")⟩ := by
  refine ⟨fetch_eq_spec, ?_, by decide⟩
  intro ip? port?
  rw [fetch_eq_spec]
  simp only [specOutcome]
  split_ifs <;> simp [hasLocation, responseHeaders]

/-- C7: every response of the hardened handler, redirect and error
alike, carries the five fixed security headers. -/
theorem securityHeadersEverywhere (ip? port? : Option String) :
    ("X-Content-Type-Options", "nosniff")
      ∈ (workerFetch ip? port?).headers ∧
    ("Content-Security-Policy", "default-src \x27none\x27;")
      ∈ (workerFetch ip? port?).headers ∧
    ("Referrer-Policy", "no-referrer")
      ∈ (workerFetch ip? port?).headers ∧
    ("X-Frame-Options", "DENY")
      ∈ (workerFetch ip? port?).headers ∧
    ("Strict-Transport-Security", "max-age=31536000; includeSubDomains; preload")
      ∈ (workerFetch ip? port?).headers := by
  rw [fetch_eq_spec]
  simp only [specOutcome]
  split_ifs <;> simp [responseHeaders]

/-- C8: the two source variants diverge: on ip 10.0.0.5 with port 27015
the hardened worker answers a 400 JSON range-blocking error while the
minimal worker redirects; on the shared success path the status codes
are 301 versus 302; and on failures the hardened worker sends JSON while
the minimal worker sends plain text. -/
theorem variantsDiverge :
    (workerFetch (some "10.0.0.5") (some "27015")).status = 400 ∧
    (workerFetch (some "10.0.0.5") (some "27015")).body =
      some (jsonError "Redirecting to private or reserved IP addresses is not allowed.") ∧
    (minimalFetch (FetchInput.params (some "10.0.0.5") (some "27015"))).status = 302 ∧
    (minimalFetch (FetchInput.params (some "10.0.0.5") (some "27015"))).headers =
      [("Location", "steam://connect/10.0.0.5:27015")] ∧
    (workerFetch (some "51.68.200.55") (some "27015")).status = 301 ∧
    (minimalFetch (FetchInput.params (some "51.68.200.55") (some "27015"))).status = 302 ∧
    (workerFetch (some "51.68.200.55") (some "abc")).body =
      some (jsonError "\x27port\x27 parameter must be a valid port number.") ∧
    ("Content-Type", "application/json; charset=utf-8")
      ∈ (workerFetch (some "51.68.200.55") (some "abc")).headers ∧
    (minimalFetch (FetchInput.params (some "51.68.200.55") (some "abc"))).body =
      some "Error: \x27port\x27 parameter must be a valid port number between 1 and 65535." ∧
    ("Content-Type", "text/plain")
      ∈ (minimalFetch (FetchInput.params (some "51.68.200.55") (some "abc"))).headers := by
  decide

/-- C9: the handler is a pure function of the request (the embedding
threads no state), so byte-identical requests get identical
responses. -/
theorem handlerDeterministic (r₁ r₂ : FetchInput) (h : r₁ = r₂) :
    hardenedFetch r₁ = hardenedFetch r₂ := by rw [h]

/-- Witness for C9 at a concrete repeated request. -/
theorem handlerDeterministic_witness :
    FetchInput.params (some "51.68.200.55") (some "27015") =
      FetchInput.params (some "51.68.200.55") (some "27015") ∧
    hardenedFetch (FetchInput.params (some "51.68.200.55") (some "27015")) =
      hardenedFetch (FetchInput.params (some "51.68.200.55") (some "27015")) :=
  ⟨rfl, handlerDeterministic _ _ rfl⟩

/-- C10: the all-digit test ahead of parseInt rules NaN out (parseInt of
an all-digit string always yields a value), and a redirect is issued
only when the port parameter is an all-digit string whose exact value
lies in [1,65535], however long the digit string is. -/
theorem portRangeSafety :
    (∀ p : String, digitsOnly p = true → (parseIntJS p).isSome = true) ∧
    (∀ ip? port? : Option String, (workerFetch ip? port?).status = 301 →
      digitsOnly (port?.getD "") = true ∧
      1 ≤ natOfDigits (port?.getD "") ∧
      natOfDigits (port?.getD "") ≤ 65535) := by
  constructor
  · intro p hp
    rw [parseIntJS_digits p hp]
    rfl
  · intro ip? port? hst
    rw [fetch_eq_spec] at hst
    unfold specOutcome at hst
    by_cases hfa : (falsy ip? || falsy port?) = true
    · rw [if_pos hfa] at hst
      exact absurd hst (by decide)
    · rw [if_neg hfa] at hst
      by_cases hv : (!specAddressOk (ip?.getD "")) = true
      · rw [if_pos hv] at hst
        exact absurd hst (by decide)
      · rw [if_neg hv] at hst
        by_cases hres : specReserved (ip?.getD "") = true
        · rw [if_pos hres] at hst
          exact absurd hst (by decide)
        · rw [if_neg hres] at hst
          by_cases hd : (!digitsOnly (port?.getD "")) = true
          · rw [if_pos hd] at hst
            exact absurd hst (by decide)
          · rw [if_neg hd] at hst
            have hd' : digitsOnly (port?.getD "") = true := by
              cases h : digitsOnly (port?.getD "") with
              | true => rfl
              | false => exact absurd (by simp [h]) hd
            by_cases hr : natOfDigits (port?.getD "") < 1 ∨
                natOfDigits (port?.getD "") > 65535
            · rw [if_pos hr] at hst
              exact absurd hst (by decide)
            · exact ⟨hd', by omega, by omega⟩

/-- Witness for C10 at port 27015 on a public address. -/
theorem portRangeSafety_witness :
    (parseIntJS "27015").isSome = true ∧
    (digitsOnly "27015" = true ∧ 1 ≤ natOfDigits "27015" ∧
      natOfDigits "27015" ≤ 65535) :=
  ⟨portRangeSafety.1 "27015" (by decide),
   portRangeSafety.2 (some "51.68.200.55") (some "27015") (by decide)⟩

end SteamConnect
